import Mathlib

set_option autoImplicit false

namespace LiquidDsp

/-!
Shallow embedding of the liquid-dsp Rust binding layer (the `src/` wrapper
crate).  Machine floats (`f32`) are modelled as rationals: every finite `f32`
value is an exact rational and the `<`, `<=`, `>`, `>=`, `==` comparisons used
by the wrapper's validation code agree with the rational order on finite
values, so every validation predicate in the source translates exactly.
Native (C library) calls are modelled as trace records: each wrapper operation
returns, besides its result, the list of native calls it performed, so
"rejected before any native call" is the statement that this list is empty.
-/

/-- Model of Rust `f32` sample and parameter values (finite floats only). -/
abbrev F32 := ℚ

/-- Host complex type `num::complex::Complex32`: two `f32` fields `re`, `im`. -/
structure Complex32 where
  re : F32
  im : F32
deriving DecidableEq, Repr

/-- Foreign struct `liquid_float_complex`: two `f32` fields `re`, `im`,
in that order (src/utils.rs, `LiquidFloatComplex`). -/
structure LiquidFloatComplex where
  re : F32
  im : F32
deriving DecidableEq, Repr

/-- Rust impl `ToCValue for Complex32` (src/utils.rs lines 51-59): builds the
foreign struct by copying the `re` and `im` fields; pure, no failure mode. -/
def to_c_value (x : Complex32) : LiquidFloatComplex :=
  { re := x.re, im := x.im }

/-- Modelled from the spec: `from_foreign(value) -> HostComplex` — the inverse
conversion from the foreign 2-float struct back to the host complex type,
reading the `re` and `im` fields.  The wrapper source under src/ contains no
explicit inverse (it reinterprets memory in place), so this follows the
spec's words for `from_foreign`. -/
def from_foreign (v : LiquidFloatComplex) : Complex32 :=
  { re := v.re, im := v.im }

/-! ## Callback boundary utility (src/utils.rs, `catch`) -/

/-- Behaviour of a host closure handed to `catch`: it either returns a value
normally or panics (begins unwinding). -/
inductive ClosureOutcome (α : Type) where
  | normal (a : α)
  | panics
deriving DecidableEq, Repr

/-- Observable outcome of `catch`: either the function returns (with an
`Option` value, as in the source signature), or the process terminates with
an exit code. -/
inductive CatchResult (α : Type) where
  | returns (a : Option α)
  | processExit (code : Int)
deriving DecidableEq, Repr

/-- Function `catch` (src/utils.rs lines 96-103; `catch` is a Lean keyword, hence the
name `catchUnwind` here): wraps the closure in `panic::catch_unwind`; on
`Ok(ret)` it returns `Some(ret)`, on `Err(_)` it calls
`std::process::exit(-1)` — the process terminates and the function never
returns. -/
def catchUnwind {α : Type} : ClosureOutcome α → CatchResult α
  | .normal a => .returns (some a)
  | .panics => .processExit (-1)

/-! ## Scheme enumerations (src/enums.rs) -/

/-- Rust enum `FecScheme` (src/enums.rs lines 50-79): 28 variants, `UNKNOWN` first, so
the Rust discriminants are 0..=27 in declaration order. -/
inductive FecScheme where
  | UNKNOWN
  | NONE
  | REP3
  | REP5
  | HAMMING74
  | HAMMING84
  | HAMMING128
  | GOLAY2412
  | SECDED2216
  | SECDED3932
  | SECDED7264
  | CONV_V27
  | CONV_V29
  | CONV_V39
  | CONV_V615
  | CONV_V27P23
  | CONV_V27P34
  | CONV_V27P45
  | CONV_V27P56
  | CONV_V27P67
  | CONV_V27P78
  | CONV_V29P23
  | CONV_V29P34
  | CONV_V29P45
  | CONV_V29P56
  | CONV_V29P67
  | CONV_V29P78
  | RS_M8
deriving DecidableEq, Repr

/-- Rust impl `From<FecScheme> for u8` (src/enums.rs lines 81-85): a transmute of
the discriminant, i.e. the declaration index. -/
def FecScheme.toU8 : FecScheme → Nat
  | .UNKNOWN => 0
  | .NONE => 1
  | .REP3 => 2
  | .REP5 => 3
  | .HAMMING74 => 4
  | .HAMMING84 => 5
  | .HAMMING128 => 6
  | .GOLAY2412 => 7
  | .SECDED2216 => 8
  | .SECDED3932 => 9
  | .SECDED7264 => 10
  | .CONV_V27 => 11
  | .CONV_V29 => 12
  | .CONV_V39 => 13
  | .CONV_V615 => 14
  | .CONV_V27P23 => 15
  | .CONV_V27P34 => 16
  | .CONV_V27P45 => 17
  | .CONV_V27P56 => 18
  | .CONV_V27P67 => 19
  | .CONV_V27P78 => 20
  | .CONV_V29P23 => 21
  | .CONV_V29P34 => 22
  | .CONV_V29P45 => 23
  | .CONV_V29P56 => 24
  | .CONV_V29P67 => 25
  | .CONV_V29P78 => 26
  | .RS_M8 => 27

/-- The `transmute::<u8, FecScheme>` step: the variant with the given
discriminant (only reached for discriminants 0..=27). -/
def FecScheme.ofDiscriminant : Nat → FecScheme
  | 0 => .UNKNOWN
  | 1 => .NONE
  | 2 => .REP3
  | 3 => .REP5
  | 4 => .HAMMING74
  | 5 => .HAMMING84
  | 6 => .HAMMING128
  | 7 => .GOLAY2412
  | 8 => .SECDED2216
  | 9 => .SECDED3932
  | 10 => .SECDED7264
  | 11 => .CONV_V27
  | 12 => .CONV_V29
  | 13 => .CONV_V39
  | 14 => .CONV_V615
  | 15 => .CONV_V27P23
  | 16 => .CONV_V27P34
  | 17 => .CONV_V27P45
  | 18 => .CONV_V27P56
  | 19 => .CONV_V27P67
  | 20 => .CONV_V27P78
  | 21 => .CONV_V29P23
  | 22 => .CONV_V29P34
  | 23 => .CONV_V29P45
  | 24 => .CONV_V29P56
  | 25 => .CONV_V29P67
  | 26 => .CONV_V29P78
  | _ => .RS_M8

/-- Rust impl `From<u8> for FecScheme` (src/enums.rs lines 87-94): values above 27
decode to `UNKNOWN`, the rest by transmute of the discriminant. -/
def FecScheme.ofU8 (value : Nat) : FecScheme :=
  if value > 27 then .UNKNOWN else FecScheme.ofDiscriminant value

/-- Rust enum `CrcScheme` (src/enums.rs lines 96-105): 7 variants, `CRC_UNKNOWN` first,
discriminants 0..=6 in declaration order. -/
inductive CrcScheme where
  | CRC_UNKNOWN
  | CRC_NONE
  | CRC_CHECKSUM
  | CRC_8
  | CRC_16
  | CRC_24
  | CRC_32
deriving DecidableEq, Repr

/-- Rust impl `From<CrcScheme> for u8` (src/enums.rs lines 107-111): transmute of
the discriminant. -/
def CrcScheme.toU8 : CrcScheme → Nat
  | .CRC_UNKNOWN => 0
  | .CRC_NONE => 1
  | .CRC_CHECKSUM => 2
  | .CRC_8 => 3
  | .CRC_16 => 4
  | .CRC_24 => 5
  | .CRC_32 => 6

/-- The `transmute::<u8, CrcScheme>` step (only reached for 0..=6). -/
def CrcScheme.ofDiscriminant : Nat → CrcScheme
  | 0 => .CRC_UNKNOWN
  | 1 => .CRC_NONE
  | 2 => .CRC_CHECKSUM
  | 3 => .CRC_8
  | 4 => .CRC_16
  | 5 => .CRC_24
  | _ => .CRC_32

/-- Rust impl `From<u8> for CrcScheme` (src/enums.rs lines 113-120): values above 6
decode to `CRC_UNKNOWN`, the rest by transmute. -/
def CrcScheme.ofU8 (value : Nat) : CrcScheme :=
  if value > 6 then .CRC_UNKNOWN else CrcScheme.ofDiscriminant value

/-! ## Error type (src/errors.rs) -/

/-- Error kinds of the wrapper crate (src/errors.rs `ErrorKind`, surfaced as
`LiquidError`; these are the variant forms used at every call site in src/). -/
inductive LiquidError where
  | EmptyBuffer
  | InvalidCrcScheme
  | InvalidFecScheme
  | InvalidValue (detail : String)
  | Unknown
deriving DecidableEq, Repr

/-! ## AGC (src/agc.rs, macro `agc_xxx_impl` instantiated for `AgcCrcf` and
`AgcRrrf`; the generated method bodies are identical up to the sample type) -/

/-- Native AGC calls the wrapper can forward to (trace records). -/
inductive AgcCall where
  | setBandwidth (b : F32)
  | setSignalLevel (level : F32)
  | setGain (gain : F32)
deriving DecidableEq, Repr

/-- Method `set_bandwidth` (src/agc.rs lines 83-93): rejects `b < 0 || b > 1`
with `InvalidValue`, otherwise forwards to the native setter. -/
def agc_set_bandwidth (b : F32) : List AgcCall × Except LiquidError Unit :=
  if b < 0 ∨ b > 1 then
    ([], .error (.InvalidValue "b must be in [0, 1.0]"))
  else
    ([.setBandwidth b], .ok ())

/-- Method `set_signal_level` (src/agc.rs lines 104-114): rejects
`level <= 0` with `InvalidValue`, otherwise forwards to the native setter. -/
def agc_set_signal_level (level : F32) : List AgcCall × Except LiquidError Unit :=
  if level ≤ 0 then
    ([], .error (.InvalidValue "level must be greater than zero"))
  else
    ([.setSignalLevel level], .ok ())

/-- Method `set_gain` (src/agc.rs lines 134-144): rejects `gain <= 0` with
`InvalidValue`, otherwise forwards to the native setter. -/
def agc_set_gain (gain : F32) : List AgcCall × Except LiquidError Unit :=
  if gain ≤ 0 then
    ([], .error (.InvalidValue "gain must be greater than zero"))
  else
    ([.setGain gain], .ok ())

/-- Outcome of an `execute_block`-style call: either the length assertion
fails (a panic raised before any native call) or the native block call is
made with the common buffer length. -/
inductive BlockOutcome where
  | panicked (msg : String)
  | nativeCalled (n : Nat)
deriving DecidableEq, Repr

/-- Method `execute_block` of the AGC wrappers (src/agc.rs lines 227-240):
asserts `x.len() == y.len()` and only then makes the native block call. -/
def agc_execute_block {α : Type} (x y : List α) : BlockOutcome :=
  if x.length = y.length then .nativeCalled x.length
  else .panicked "Input and output buffers with different length"

/-! ## FIR filters (src/filter/firfilt.rs) -/

/-- Method `execute_block` of the FIR filter wrappers (src/filter/firfilt.rs,
lines 272-282 for `FirFiltRrrf`; `FirFiltCrcf` and `FirFiltCccf` are
identical up to the sample type): asserts `x.len() == y.len()` and only then
makes the native block call. -/
def firfilt_execute_block {α : Type} (x y : List α) : BlockOutcome :=
  if x.length = y.length then .nativeCalled x.length
  else .panicked "x and y buffers must have the same len"

/-- Native FIR-filter constructor calls (trace records). -/
inductive FirfiltCall where
  | create (h : List F32)
  | createRnyquist (ftype k m : Nat) (beta mu : F32)
  | createNotch (m : Nat) (a f0 : F32)
deriving DecidableEq, Repr

/-- Constructor `FirFiltRrrf::create` (src/filter/firfilt.rs lines 199-208):
rejects an empty coefficient slice with `InvalidValue`, otherwise calls the
native constructor `firfilt_rrrf_create`. -/
def firfilt_create (h : List F32) : List FirfiltCall × Except LiquidError Unit :=
  if h.length = 0 then
    ([], .error (.InvalidValue "filter length must be greater than zero"))
  else
    ([.create h], .ok ())

/-- Constructor `create_rnyquist` (src/filter/firfilt.rs lines 59-88, macro
`firfilt_impl`): checks, in order, `k < 2`, `m == 0`, `beta < 0 || beta > 1`,
`mu < -0.5 || mu > 0.5`; only when all pass does it call the native
constructor.  `ftype` is the u8 code of the design type, forwarded as-is. -/
def firfilt_create_rnyquist (ftype k m : Nat) (beta mu : F32) :
    List FirfiltCall × Except LiquidError Unit :=
  if k < 2 then
    ([], .error (.InvalidValue "filter samples/symbol must be greater than 1"))
  else if m = 0 then
    ([], .error (.InvalidValue "filter delay must be greater than zero"))
  else if beta < 0 ∨ beta > 1 then
    ([], .error (.InvalidValue "filter excess bandwith factor must be in [0, 1.0]"))
  else if mu < -(1/2) ∨ mu > 1/2 then
    ([], .error (.InvalidValue "filter fractional sample offser factor must be in [-0.5, 0.5]"))
  else
    ([.createRnyquist ftype k m beta mu], .ok ())

/-- Constructor `create_notch` (src/filter/firfilt.rs lines 90-108, macro
`firfilt_impl`): checks, in order, `m < 1 || m > 1000`, `as_ < 0`
(note: strictly-less, so `as_ == 0` passes), `f0 < -0.5 || f0 > 0.5`; only
when all pass does it call the native constructor. -/
def firfilt_create_notch (m : Nat) (a f0 : F32) :
    List FirfiltCall × Except LiquidError Unit :=
  if m < 1 ∨ m > 1000 then
    ([], .error (.InvalidValue "filter semi-length must be in [1, 1000]"))
  else if a < 0 then
    ([], .error (.InvalidValue "filter prototype stop-band suppression be greater than zero"))
  else if f0 < -(1/2) ∨ f0 > 1/2 then
    ([], .error (.InvalidValue "filter notch frequency must be in [-0.5, 0.5]"))
  else
    ([.createNotch m a f0], .ok ())

/-! ## Filter design helpers (src/filter/firdes.rs) -/

/-- Outcome of `Firdes::estimate_filter_len`: either a validation error, or
the native call `estimate_req_filter_len(df, as_)` proceeds (its numeric
result lives in the out-of-scope native library, so only the call record with
its arguments is kept). -/
inductive FirdesOutcome where
  | err (e : LiquidError)
  | native (df a : F32)
deriving DecidableEq, Repr

/-- Method `Firdes::estimate_filter_len` (src/filter/firdes.rs lines 88-100):
rejects `df > 0.5 || df <= 0`, then `as_ <= 0`, otherwise makes the native
call.  Note the first guard accepts `df == 0.5` although the function's doc
comment requires `0 < _df < 0.5` and the error text says `(0, 0.5)`. -/
def estimate_filter_len (df a : F32) : FirdesOutcome :=
  if df > 1/2 ∨ df ≤ 0 then
    .err (.InvalidValue "invalid bandwidth, valid values are (0, 0.5)")
  else if a ≤ 0 then
    .err (.InvalidValue "invalid stopband level, as > 0")
  else
    .native df a

/-! ## CRC and FEC scheme operations (src/fec/crc.rs, src/fec/fec.rs) -/

/-- Outcome of a CRC operation: a wrapper error, or the native call with the
u8 scheme code and the message length it was given. -/
inductive CrcOutcome where
  | err (e : LiquidError)
  | native (schemeCode msgLen : Nat)
deriving DecidableEq, Repr

/-- Method `CrcScheme::generate_key` (src/fec/crc.rs lines 30-44): rejects
`CRC_UNKNOWN` with `InvalidCrcScheme` before any native call; every other
scheme is forwarded to native `crc_generate_key` with its u8 code. -/
def generate_key (s : CrcScheme) (msg : List Nat) : CrcOutcome :=
  match s with
  | .CRC_UNKNOWN => .err .InvalidCrcScheme
  | _ => .native s.toU8 msg.length

/-- Method `CrcScheme::append_key` (src/fec/crc.rs lines 49-57): performs no
scheme check at all — it forwards every scheme, `CRC_UNKNOWN` included, to
native `crc_append_key`, and returns `()` (the method has no error path). -/
def append_key (s : CrcScheme) (msg : List Nat) : CrcOutcome :=
  .native s.toU8 msg.length

/-- Handle produced by `Fec::create` (src/fec/fec.rs lines 12-19): the
constructor performs no validation and unconditionally calls native
`fec_create` with the scheme's u8 code; its return type is `Self`, so it has
no error path at all. -/
structure FecHandle where
  schemeCode : Nat
deriving DecidableEq, Repr

/-- Constructor `Fec::create` (src/fec/fec.rs lines 12-19). -/
def fec_create (s : FecScheme) : FecHandle :=
  { schemeCode := s.toU8 }

/-! ## Circular buffers (src/cbuffer.rs, `CbufferRf` / `CbufferCf`) -/

/-- Modulus of the wrapper's `u32` shadow counter `num_elements`. -/
def U32_MOD : Nat := 4294967296

/-- Combined wrapper + native state of a circular buffer.  `maxSize` is the
fixed capacity reported by the native `max_size()` getter, `nativeCount`
models the native element count (the native library itself is out of scope;
only `maxSize` being constant matters to the theorems below), and
`num_elements` is the wrapper's `u32` shadow counter. -/
structure Cbuffer where
  maxSize : Nat
  nativeCount : Nat
  num_elements : Nat
deriving DecidableEq, Repr

/-- Native circular-buffer calls (trace records). -/
inductive CbufCall where
  | push
  | write (n : Nat)
  | pop
  | release (n : Nat)
deriving DecidableEq, Repr

/-- Constructor `create(max_size)` (src/cbuffer.rs lines 31-36): fresh native
buffer of the given capacity, shadow counter zero. -/
def Cbuffer.create (max_size : Nat) : Cbuffer :=
  { maxSize := max_size, nativeCount := 0, num_elements := 0 }

/-- Method `push` (src/cbuffer.rs lines 124-133 for `CbufferCf`, lines
181-190 for `CbufferRf`; identical up to the sample type, which does not
enter the control flow): when the shadow counter equals the native
`max_size()` it returns the "no space available" error, making no native
call; otherwise it makes the native push and increments the `u32` shadow
counter. -/
def Cbuffer.push (st : Cbuffer) : List CbufCall × Except String Cbuffer :=
  if st.num_elements = st.maxSize then
    ([], .error "warning: no space available")
  else
    ([.push],
      .ok { st with nativeCount := st.nativeCount + 1,
                    num_elements := (st.num_elements + 1) % U32_MOD })

/-- Method `write` (src/cbuffer.rs lines 136-149 / 193-202): rejects a slice
longer than the native `space_available()`; otherwise makes the native write
and adds to the `u32` shadow counter the `as u32` cast of the slice length. -/
def Cbuffer.write (st : Cbuffer) (len : Nat) : List CbufCall × Except String Cbuffer :=
  if len > st.maxSize - st.nativeCount then
    ([], .error "cannot write more elements than are available")
  else
    ([.write len],
      .ok { st with nativeCount := st.nativeCount + len,
                    num_elements := (st.num_elements + len % U32_MOD) % U32_MOD })

/-- Method `pop` (src/cbuffer.rs lines 152-162 / 205-215): returns `None`
when the shadow counter is zero, making no native call and leaving the state
unchanged; otherwise makes the native pop and decrements the shadow
counter. -/
def Cbuffer.pop (st : Cbuffer) : List CbufCall × Option Cbuffer :=
  if st.num_elements = 0 then
    ([], none)
  else
    ([.pop],
      some { st with nativeCount := st.nativeCount - 1,
                     num_elements := st.num_elements - 1 })

/-- Method `release` (src/cbuffer.rs lines 88-96, macro `cbuffer_xxx_impl`
shared by both buffer types): rejects `n > num_elements` with `EmptyBuffer`;
otherwise makes the native release.  The shadow counter is not modified on
either path. -/
def Cbuffer.release (st : Cbuffer) (n : Nat) : List CbufCall × Except LiquidError Cbuffer :=
  if n > st.num_elements then
    ([], .error .EmptyBuffer)
  else
    ([.release n], .ok { st with nativeCount := st.nativeCount - n })

/-- Iterated single-sample pushes: `true` iff `n` successive `push` calls
starting from `st` all return `Ok`. -/
def Cbuffer.pushSeqOk : Cbuffer → Nat → Bool
  | _, 0 => true
  | st, n + 1 =>
    match st.push with
    | (_, .ok st') => st'.pushSeqOk n
    | (_, .error _) => false

/-! ## Claim theorems -/

/-- Claim C1: for every `Complex32` value `x`, `to_c_value x` yields a
foreign struct whose `re` and `im` fields equal `x.re` and `x.im` exactly (a
pure, non-failing conversion), so converting the foreign struct back with
`from_foreign` reproduces `x` exactly. -/
theorem to_c_value_roundtrip (x : Complex32) :
    (to_c_value x).re = x.re ∧ (to_c_value x).im = x.im ∧
      from_foreign (to_c_value x) = x :=
  ⟨rfl, rfl, rfl⟩

/-- Claim C2: every `execute_block`-style call (AGC and FIR-filter wrappers)
with `x.length ≠ y.length` is rejected by the length assertion — a panic —
before any native call; with equal lengths the assertion passes and the
native block call proceeds. -/
theorem execute_block_length_contract {α : Type} (x y : List α) :
    (x.length ≠ y.length →
      (∃ msg, agc_execute_block x y = .panicked msg) ∧
      (∃ msg, firfilt_execute_block x y = .panicked msg)) ∧
    (x.length = y.length →
      agc_execute_block x y = .nativeCalled x.length ∧
      firfilt_execute_block x y = .nativeCalled x.length) := by
  constructor
  · intro h
    exact ⟨⟨"Input and output buffers with different length",
            by rw [agc_execute_block, if_neg h]⟩,
           ⟨"x and y buffers must have the same len",
            by rw [firfilt_execute_block, if_neg h]⟩⟩
  · intro h
    exact ⟨by rw [agc_execute_block, if_pos h], by rw [firfilt_execute_block, if_pos h]⟩

/-- Claim C2 witness: both hypotheses discharged at concrete buffers. -/
theorem execute_block_length_contract_witness :
    ((∃ msg, agc_execute_block [(1 : F32)] ([] : List F32) = .panicked msg) ∧
     (∃ msg, firfilt_execute_block [(1 : F32)] ([] : List F32) = .panicked msg)) ∧
    (agc_execute_block [(1 : F32)] [(2 : F32)] = .nativeCalled 1 ∧
     firfilt_execute_block [(1 : F32)] [(2 : F32)] = .nativeCalled 1) :=
  ⟨(execute_block_length_contract [(1 : F32)] ([] : List F32)).1 (by decide),
   (execute_block_length_contract [(1 : F32)] [(2 : F32)]).2 rfl⟩

/-- Claim C3 counterexample: invoking `CrcScheme::append_key` with the
sentinel `CRC_UNKNOWN` does not return an error — it makes the native call
`crc_append_key` with scheme code 0 — and `Fec::create` invoked with
`FecScheme::UNKNOWN` likewise calls native `fec_create` with scheme code 0
and, returning `Self`, has no error path.  This refutes the claim that every
scheme-taking operation rejects the unknown sentinel before any native
call. -/
theorem append_key_unknown_calls_native :
    append_key .CRC_UNKNOWN [0] = .native 0 1 ∧
      fec_create .UNKNOWN = { schemeCode := 0 } :=
  ⟨rfl, rfl⟩

/-- Claim C3 (amended): `generate_key` rejects `CRC_UNKNOWN` with
`InvalidCrcScheme` before any native call and forwards every other scheme to
the native call; `append_key` and `Fec::create`, however, perform no scheme
validation and invoke the native function for every scheme, the unknown
sentinel included. -/
theorem scheme_validation_amended (s : CrcScheme) (f : FecScheme) (msg : List Nat) :
    (s = .CRC_UNKNOWN → generate_key s msg = .err .InvalidCrcScheme) ∧
    (s ≠ .CRC_UNKNOWN → generate_key s msg = .native s.toU8 msg.length) ∧
    append_key s msg = .native s.toU8 msg.length ∧
    fec_create f = { schemeCode := f.toU8 } := by
  refine ⟨?_, ?_, rfl, rfl⟩
  · rintro rfl
    rfl
  · intro h
    cases s <;> first | exact absurd rfl h | rfl

/-- Claim C3 witness for the amended theorem: both hypotheses discharged at
concrete schemes. -/
theorem scheme_validation_amended_witness :
    generate_key .CRC_UNKNOWN [0] = .err .InvalidCrcScheme ∧
      generate_key .CRC_32 [0] = .native 6 1 :=
  ⟨(scheme_validation_amended .CRC_UNKNOWN .UNKNOWN [0]).1 rfl,
   (scheme_validation_amended .CRC_32 .UNKNOWN [0]).2.1 (by decide)⟩

/-- Claim C4: `set_bandwidth` errs exactly when `b` is outside `[0, 1]`, with
the constraint text in the error; but `estimate_filter_len` does not reject
exactly the complement of `(0, 0.5)`: at the boundary `df = 0.5` — which lies
outside the open interval `(0, 0.5)` required by the claim and by the
function's own doc comment and error text — validation passes and the native
call `estimate_req_filter_len(0.5, 60)` is made. -/
theorem bandwidth_validation_and_df_boundary (b : F32) :
    ((agc_set_bandwidth b).2 = .error (.InvalidValue "b must be in [0, 1.0]") ↔
      ¬(0 ≤ b ∧ b ≤ 1)) ∧
    estimate_filter_len (1/2) 60 = .native (1/2) 60 := by
  constructor
  · unfold agc_set_bandwidth
    split_ifs with h
    · constructor
      · rintro - ⟨h0, h1⟩
        rcases h with h | h
        · exact absurd h0 (not_le.mpr h)
        · exact absurd h1 (not_le.mpr h)
      · intro _
        rfl
    · constructor
      · intro habs
        simp at habs
      · intro hout
        exfalso
        apply hout
        push_neg at h
        exact ⟨h.1, h.2⟩
  · unfold estimate_filter_len
    rw [if_neg (by norm_num), if_neg (by norm_num)]

/-- Claim C4 witness: the bandwidth-validation equivalence discharged at the
concrete out-of-range input `b = 1.5`. -/
theorem bandwidth_validation_and_df_boundary_witness :
    (agc_set_bandwidth (3/2)).2 = .error (.InvalidValue "b must be in [0, 1.0]") :=
  ((bandwidth_validation_and_df_boundary (3/2)).1).mpr (by norm_num)

/-- Claim C5: `set_gain` and `set_signal_level` err exactly on arguments
`<= 0`, but `create_notch` does not reject a stop-band attenuation of
exactly `0`: its guard is the strict `as_ < 0`, so at `as_ = 0` validation
passes and the native constructor is called, although the function's own
error text demands an attenuation "greater than zero". -/
theorem strictly_positive_validation (gain level : F32) :
    ((agc_set_gain gain).2 =
        .error (.InvalidValue "gain must be greater than zero") ↔ gain ≤ 0) ∧
    ((agc_set_signal_level level).2 =
        .error (.InvalidValue "level must be greater than zero") ↔ level ≤ 0) ∧
    firfilt_create_notch 1 0 0 = ([.createNotch 1 0 0], .ok ()) := by
  refine ⟨?_, ?_, ?_⟩
  · unfold agc_set_gain
    split_ifs with h
    · exact ⟨fun _ => h, fun _ => rfl⟩
    · constructor
      · intro habs
        simp at habs
      · intro hg
        exact absurd hg h
  · unfold agc_set_signal_level
    split_ifs with h
    · exact ⟨fun _ => h, fun _ => rfl⟩
    · constructor
      · intro habs
        simp at habs
      · intro hl
        exact absurd hl h
  · unfold firfilt_create_notch
    rw [if_neg (by norm_num), if_neg (by norm_num), if_neg (by norm_num)]

/-- Claim C5 witness: both validation equivalences discharged at the
concrete rejected input `-1`. -/
theorem strictly_positive_validation_witness :
    (agc_set_gain (-1)).2 = .error (.InvalidValue "gain must be greater than zero") ∧
    (agc_set_signal_level (-1)).2 =
      .error (.InvalidValue "level must be greater than zero") :=
  ⟨((strictly_positive_validation (-1) (-1)).1).mpr (by norm_num),
   ((strictly_positive_validation (-1) (-1)).2.1).mpr (by norm_num)⟩

/-- Claim C6: an invalid argument makes `FirFiltRrrf::create` (empty
coefficient slice) and `create_rnyquist` (`k < 2`, `m == 0`, `beta` outside
`[0, 1]`, or `mu` outside `[-0.5, 0.5]`) return an `InvalidValue` error with
an empty native-call trace, so no native allocation or partial native state
is created on validation failure. -/
theorem constructor_validation_no_native (h : List F32) (ftype k m : Nat) (beta mu : F32) :
    (h = [] → ∃ d, firfilt_create h = ([], .error (.InvalidValue d))) ∧
    (k < 2 ∨ m = 0 ∨ beta < 0 ∨ beta > 1 ∨ mu < -(1/2) ∨ mu > 1/2 →
      ∃ d, firfilt_create_rnyquist ftype k m beta mu = ([], .error (.InvalidValue d))) := by
  constructor
  · rintro rfl
    exact ⟨_, rfl⟩
  · intro hbad
    unfold firfilt_create_rnyquist
    split_ifs with h1 h2 h3 h4
    · exact ⟨_, rfl⟩
    · exact ⟨_, rfl⟩
    · exact ⟨_, rfl⟩
    · exact ⟨_, rfl⟩
    · rcases hbad with hk | hm | hb | hb | hu | hu
      · exact absurd hk h1
      · exact absurd hm h2
      · exact absurd (Or.inl hb) h3
      · exact absurd (Or.inr hb) h3
      · exact absurd (Or.inl hu) h4
      · exact absurd (Or.inr hu) h4

/-- Claim C6 witness: both hypotheses discharged at concrete invalid
arguments (empty coefficients; `k = 1 < 2`). -/
theorem constructor_validation_no_native_witness :
    (∃ d, firfilt_create [] = ([], .error (.InvalidValue d))) ∧
    (∃ d, firfilt_create_rnyquist 0 1 1 0 0 = ([], .error (.InvalidValue d))) :=
  ⟨(constructor_validation_no_native [] 0 1 1 0 0).1 rfl,
   (constructor_validation_no_native [] 0 1 1 0 0).2 (Or.inl (by norm_num))⟩

/-- Any run of successive pushes fits while the shadow counter plus the
number of remaining pushes stays within the (u32-sized) capacity. -/
theorem pushSeqOk_of_le (n : Nat) :
    ∀ st : Cbuffer, st.maxSize < U32_MOD →
      st.num_elements + n ≤ st.maxSize → st.pushSeqOk n = true := by
  induction n with
  | zero =>
    intro st _ _
    rfl
  | succ k ih =>
    intro st hmax hle
    have hne : st.num_elements ≠ st.maxSize := by omega
    have hpush : st.push =
        ([.push], .ok { st with nativeCount := st.nativeCount + 1,
                                num_elements := (st.num_elements + 1) % U32_MOD }) := by
      rw [Cbuffer.push, if_neg hne]
    rw [Cbuffer.pushSeqOk, hpush]
    apply ih
    · exact hmax
    · show (st.num_elements + 1) % U32_MOD + k ≤ st.maxSize
      rw [Nat.mod_eq_of_lt (by omega)]
      omega

/-- Claim C7: for a circular buffer created with capacity `c` (a `u32`
value), any sequence of `n ≤ c` single-sample pushes starting from the empty
buffer all succeed, and a push attempted when the wrapper's element count
equals the buffer's maximum size returns the "no space available" error with
no native push — the sample is never silently dropped or overwritten. -/
theorem cbuffer_push_capacity (c n : Nat) (st : Cbuffer) :
    (c < U32_MOD → n ≤ c → (Cbuffer.create c).pushSeqOk n = true) ∧
    (st.num_elements = st.maxSize →
      st.push = ([], .error "warning: no space available")) := by
  constructor
  · intro hc hn
    apply pushSeqOk_of_le n (Cbuffer.create c) hc
    show 0 + n ≤ c
    omega
  · intro hfull
    rw [Cbuffer.push, if_pos hfull]

/-- Claim C7 witness: hypotheses discharged at capacity 3 with 3 pushes, and
at a concrete full buffer. -/
theorem cbuffer_push_capacity_witness :
    (Cbuffer.create 3).pushSeqOk 3 = true ∧
    ({ maxSize := 2, nativeCount := 2, num_elements := 2 } : Cbuffer).push
      = ([], .error "warning: no space available") :=
  ⟨(cbuffer_push_capacity 3 3 (Cbuffer.create 3)).1 (by norm_num [U32_MOD]) le_rfl,
   (cbuffer_push_capacity 3 3
      { maxSize := 2, nativeCount := 2, num_elements := 2 }).2 rfl⟩

/-- Claim C8 counterexample: `catch` applied to a panicking closure does not
convert the failure into a sentinel return value — it terminates the process
with exit code `-1` (`std::process::exit(-1)` in the source), the very
outcome the claim excludes.  The `processExit` constructor is distinct from
every `returns` value of the model. -/
theorem catch_panic_exits :
    catchUnwind (ClosureOutcome.panics : ClosureOutcome Nat) =
      CatchResult.processExit (-1) :=
  rfl

/-- Claim C8 (amended): if the closure completes normally, `catch` returns
`Some` of its result; if the closure panics, the unwind is caught at the
boundary (it never propagates across the foreign frame) but the process is
then terminated via `exit(-1)` — no sentinel value is returned to the
caller. -/
theorem catch_behavior {α : Type} (a : α) :
    catchUnwind (ClosureOutcome.normal a) = .returns (some a) ∧
    catchUnwind (ClosureOutcome.panics : ClosureOutcome α) = .processExit (-1) :=
  ⟨rfl, rfl⟩

/-- Claim C9: the u8 encodings of the scheme enums round-trip exactly at
their sentinel boundaries: `FecScheme` decodes codes up to 27 faithfully and
maps every larger code to `UNKNOWN`; `CrcScheme` decodes codes up to 6
faithfully and maps every larger code to `CRC_UNKNOWN`; and encoding then
decoding any scheme value is the identity. -/
theorem scheme_u8_roundtrip (v : Nat) (s : FecScheme) (c : CrcScheme) :
    (v ≤ 27 → (FecScheme.ofU8 v).toU8 = v) ∧
    (v > 27 → FecScheme.ofU8 v = .UNKNOWN) ∧
    (v ≤ 6 → (CrcScheme.ofU8 v).toU8 = v) ∧
    (v > 6 → CrcScheme.ofU8 v = .CRC_UNKNOWN) ∧
    FecScheme.ofU8 s.toU8 = s ∧
    CrcScheme.ofU8 c.toU8 = c := by
  refine ⟨fun h => ?_, fun h => ?_, fun h => ?_, fun h => ?_, ?_, ?_⟩
  · interval_cases v <;> decide
  · rw [FecScheme.ofU8, if_pos h]
  · interval_cases v <;> decide
  · rw [CrcScheme.ofU8, if_pos h]
  · cases s <;> decide
  · cases c <;> decide

/-- Claim C9 witness: all four boundary hypotheses discharged at concrete
codes. -/
theorem scheme_u8_roundtrip_witness :
    (FecScheme.ofU8 5).toU8 = 5 ∧ FecScheme.ofU8 99 = .UNKNOWN ∧
    (CrcScheme.ofU8 6).toU8 = 6 ∧ CrcScheme.ofU8 7 = .CRC_UNKNOWN :=
  ⟨(scheme_u8_roundtrip 5 .UNKNOWN .CRC_UNKNOWN).1 (by norm_num),
   (scheme_u8_roundtrip 99 .UNKNOWN .CRC_UNKNOWN).2.1 (by norm_num),
   (scheme_u8_roundtrip 6 .UNKNOWN .CRC_UNKNOWN).2.2.1 (by norm_num),
   (scheme_u8_roundtrip 7 .UNKNOWN .CRC_UNKNOWN).2.2.2.1 (by norm_num)⟩

/-- Claim C10: the shadow counter `num_elements` changes only as follows — a
successful push increments it by 1, a successful write increments it by the
written slice's length, a successful pop decrements it by 1, and a
successful release leaves it unchanged; `pop` returns `None` exactly when
the counter is zero (making no native call in that case), and `release`
returns an `EmptyBuffer` error exactly when the requested count exceeds the
counter.  (The two increment statements carry the no-`u32`-overflow side
condition, the counter being a `u32` field.) -/
theorem cbuffer_counter_invariants (st st' : Cbuffer) (len n : Nat) (cs : List CbufCall) :
    (st.push = (cs, .ok st') → st.num_elements + 1 < U32_MOD →
      st'.num_elements = st.num_elements + 1) ∧
    (st.write len = (cs, .ok st') → st.num_elements + len < U32_MOD →
      st'.num_elements = st.num_elements + len) ∧
    (st.pop = (cs, some st') → st'.num_elements + 1 = st.num_elements) ∧
    ((st.pop).2 = none ↔ st.num_elements = 0) ∧
    (st.num_elements = 0 → st.pop = ([], none)) ∧
    (st.release n = (cs, .ok st') → st'.num_elements = st.num_elements) ∧
    ((st.release n).2 = .error .EmptyBuffer ↔ n > st.num_elements) := by
  refine ⟨?_, ?_, ?_, ?_, ?_, ?_, ?_⟩
  · intro hp hb
    rw [Cbuffer.push] at hp
    split_ifs at hp with hg
    · exact absurd (congrArg Prod.snd hp) (by simp)
    · have hok := congrArg Prod.snd hp
      simp only [] at hok
      injection hok with hok
      rw [← hok]
      show (st.num_elements + 1) % U32_MOD = st.num_elements + 1
      exact Nat.mod_eq_of_lt hb
  · intro hw hb
    rw [Cbuffer.write] at hw
    split_ifs at hw with hg
    · exact absurd (congrArg Prod.snd hw) (by simp)
    · have hok := congrArg Prod.snd hw
      simp only [] at hok
      injection hok with hok
      rw [← hok]
      show (st.num_elements + len % U32_MOD) % U32_MOD = st.num_elements + len
      rw [Nat.mod_eq_of_lt (show len < U32_MOD by omega)]
      exact Nat.mod_eq_of_lt hb
  · intro hp
    rw [Cbuffer.pop] at hp
    split_ifs at hp with hg
    · exact absurd (congrArg Prod.snd hp) (by simp)
    · have hok := congrArg Prod.snd hp
      simp only [] at hok
      injection hok with hok
      rw [← hok]
      show st.num_elements - 1 + 1 = st.num_elements
      omega
  · rw [Cbuffer.pop]
    split_ifs with hg <;> simp [hg]
  · intro hz
    rw [Cbuffer.pop, if_pos hz]
  · intro hr
    rw [Cbuffer.release] at hr
    split_ifs at hr with hg
    · exact absurd (congrArg Prod.snd hr) (by simp)
    · have hok := congrArg Prod.snd hr
      simp only [] at hok
      injection hok with hok
      rw [← hok]
  · rw [Cbuffer.release]
    split_ifs with hg <;> simp [hg]

/-- Claim C10 witness: the push-increment, pop-at-zero and release-unchanged
clauses discharged at concrete states. -/
theorem cbuffer_counter_invariants_witness :
    ({ maxSize := 4, nativeCount := 2, num_elements := 2 } : Cbuffer).num_elements
      = ({ maxSize := 4, nativeCount := 1, num_elements := 1 } : Cbuffer).num_elements + 1 ∧
    ({ maxSize := 4, nativeCount := 0, num_elements := 0 } : Cbuffer).pop = ([], none) ∧
    ({ maxSize := 4, nativeCount := 2, num_elements := 3 } : Cbuffer).num_elements
      = ({ maxSize := 4, nativeCount := 3, num_elements := 3 } : Cbuffer).num_elements :=
  ⟨(cbuffer_counter_invariants ⟨4, 1, 1⟩ ⟨4, 2, 2⟩ 0 0 [CbufCall.push]).1
      rfl (by decide),
   (cbuffer_counter_invariants ⟨4, 0, 0⟩ ⟨4, 0, 0⟩ 0 0 []).2.2.2.2.1 rfl,
   (cbuffer_counter_invariants ⟨4, 3, 3⟩ ⟨4, 2, 3⟩ 0 1 [CbufCall.release 1]).2.2.2.2.2.1
      rfl⟩

end LiquidDsp
